import Mathlib

/-!
Verification of the DNMFX optimization core.

Shallow embedding of `dnmfx/optimize.py` (the stochastic NMF optimization
loop) together with models of the collaborator modules it imports
(`dnmfx/loss.py`, `dnmfx/groups.py`, `dnmfx/initialize.py`, `dnmfx/log.py`,
`dnmfx/utils.py`), which are specified in the natural-language spec but whose
sources are not part of the checked tree.

Conventions of the embedding:
* machine floats become `ℝ`;
* tensors become functions `ℕ → ℕ → ℝ` (component index × (pixel or frame));
* the Python `random` module's hidden global state becomes an explicit
  `RandomState` value threaded through the computation;
* Python runtime exceptions (NameError, AssertionError, ZeroDivisionError)
  become an explicit `PyError` outcome.

The source of `optimize.py` references several names that are defined nowhere
in the module (`timer`, `time_update`, `update_start_time`, `time_loss`,
`time_getx`, `total_loss_per_group`): the faithful embedding `dnmf` raises
the corresponding NameError exactly where the interpreter would.  Two
additional layers implement the repairs that the spec's design notes mandate:
`dnmfTimerFixed` models the timing accumulators as explicit (zero-valued)
state, and `dnmfRepaired` additionally reads the accumulated per-iteration
loss total where the source reads the undefined `total_loss_per_group`.
-/

namespace DNMFX

noncomputable section

/-- Python runtime exceptions raised by the embedded code. -/
inductive PyError where
  | nameError (name : String)
  | assertionError
  | zeroDivisionError
  deriving DecidableEq

/-- A tensor indexed by component and by pixel (or frame). -/
abbrev Tensor := ℕ → ℕ → ℝ

/-- Modelled from the spec (§3): an axis-aligned bounding box; the spec's
interval-intersection overlap test is per-axis, so the box is modelled at
spatial rank one (one interval `[start, stop)`). -/
structure BoundingBox where
  start : ℕ
  stop : ℕ
  deriving DecidableEq, Inhabited

/-- Size of a bounding box (`bounding_box.get_size()` in the source). -/
def BoundingBox.get_size (b : BoundingBox) : ℕ := b.stop - b.start

/-- Modelled from the spec (§3): an identity index plus a bounding box. -/
structure ComponentDescription where
  index : ℕ
  bounding_box : BoundingBox
  deriving DecidableEq, Inhabited

/-- Modelled from the spec (§4.1): two boxes overlap iff their coordinate
ranges intersect on every axis (here: one axis, half-open intervals). -/
def overlap (a b : BoundingBox) : Bool :=
  decide (a.start < b.stop) && decide (b.start < a.stop)

/-- Modelled from the spec (§4.1): `get_groups` of `dnmfx/groups.py`, absent
from the checked tree.  Partitions the component descriptions into the
connected classes of the pairwise-overlap graph: each incoming description is
merged with every existing class it overlaps. -/
def get_groups (descs : List ComponentDescription) :
    List (List ComponentDescription) :=
  descs.foldl
    (fun gs d =>
      let p := gs.partition
        (fun g => g.any (fun e => overlap d.bounding_box e.bounding_box))
      (d :: p.1.flatten) :: p.2)
    []

/-- The hidden state of the Python `random` module, modelled as a tape of
draws and a position.  `optimize.py` never seeds this state. -/
structure RandomState where
  tape : ℕ → ℕ
  pos : ℕ

/-- One draw from the global random state. -/
def drawNat (s : RandomState) : ℕ × RandomState :=
  (s.tape s.pos, ⟨s.tape, s.pos + 1⟩)

/-- Modelled from the spec (§4.4, §7): `random.sample(population, k)` of the
Python standard library — `k` distinct elements chosen from the population
without replacement, consuming (and advancing) the global random state.  The
spec fixes no distribution, only without-replacement sampling driven by the
shared state; each pick consumes one draw and selects by index modulo the
remaining population. -/
def randomSample {α : Type} [Inhabited α] :
    List α → ℕ → RandomState → List α × RandomState
  | _, 0, s => ([], s)
  | pop, k + 1, s =>
    let d := drawNat s
    if pop.isEmpty then ([], d.2)
    else
      let idx := d.1 % pop.length
      let rest := randomSample (pop.eraseIdx idx) k d.2
      (pop.getD idx default :: rest.1, rest.2)

/-- Modelled from the spec (§4.3, glossary): the logistic sigmoid from
`dnmfx/utils.py`, absent from the checked tree: `s(z) = 1/(1+e^{-z})`. -/
def sigmoid (z : ℝ) : ℝ := 1 / (1 + Real.exp (-z))

/-- Function `get_x` of `optimize.py` (lines 156–162): gather the data of the given
frames restricted to the bounding box, indexed by batch position and by
pixel offset within the box. -/
def get_x (sequence : ℕ → ℕ → ℝ) (frames : List ℕ)
    (bounding_box : BoundingBox) : ℕ → ℕ → ℝ :=
  fun j p => sequence (frames.getD j 0) (bounding_box.start + p)

/-- Modelled from the spec (§4.3): `l2_loss_grad` of `dnmfx/loss.py`, absent
from the checked tree.  Reconstruction `x_hat = s(H)⊙s(W) + s(B)`, scalar
loss = mean over the sampled frames of the sum over the component's pixels of
`0.5·(x - x_hat)²` (the convention under which the spec's analytic gradient
formulas are the exact derivatives), and the gradient restricted to the
active component's slice — all other components receive zero gradient. -/
def l2_loss_grad (H W B : Tensor) (x : ℕ → ℕ → ℝ)
    (cd : ComponentDescription) (frames : List ℕ) :
    ℝ × (Tensor × Tensor × Tensor) :=
  let c := cd.index
  let P := cd.bounding_box.get_size
  let F := frames.length
  let xhat : ℕ → ℕ → ℝ := fun j p =>
    sigmoid (H c p) * sigmoid (W c (frames.getD j 0)) + sigmoid (B c p)
  let e : ℕ → ℕ → ℝ := fun j p => xhat j p - x j p
  let loss := (F : ℝ)⁻¹ *
    ∑ j ∈ Finset.range F, ∑ p ∈ Finset.range P, 2⁻¹ * (e j p) ^ 2
  let gH : Tensor := fun c' p =>
    if c' = c then
      ((F : ℝ)⁻¹ * ∑ j ∈ Finset.range F,
          e j p * sigmoid (W c (frames.getD j 0))) *
        (sigmoid (H c p) * (1 - sigmoid (H c p)))
    else 0
  let gW : Tensor := fun c' t =>
    if c' = c ∧ t ∈ frames then
      ((F : ℝ)⁻¹ * ∑ p ∈ Finset.range P,
          e (frames.indexOf t) p * sigmoid (H c p)) *
        (sigmoid (W c t) * (1 - sigmoid (W c t)))
    else 0
  let gB : Tensor := fun c' p =>
    if c' = c then
      ((F : ℝ)⁻¹ * ∑ j ∈ Finset.range F, e j p) *
        (sigmoid (B c p) * (1 - sigmoid (B c p)))
    else 0
  (loss, gH, gW, gB)

/-- Function `update` of `optimize.py` (lines 165–171): one elementwise gradient step
on each of the three parameter tensors. -/
def update (H W B gH gW gB : Tensor) (step_size : ℝ) :
    Tensor × Tensor × Tensor :=
  (fun c p => H c p - step_size * gH c p,
   fun c t => W c t - step_size * gW c t,
   fun c p => B c p - step_size * gB c p)

/-- Modelled from the spec (§4.2): `initialize_normal` of
`dnmfx/initialize.py`, absent from the checked tree.  The spec fixes only
that the draw is a deterministic function of the seed (identical seed ⇒
bit-identical tensors); the drawn values themselves are opaque, so they are
modelled by an arbitrary fixed function of the seed and the indices. -/
def init_normal (num_components num_frames component_size seed : ℕ) :
    Tensor × Tensor × Tensor :=
  (fun c p => (seed : ℝ) + c + p + num_components,
   fun c t => (seed : ℝ) + c + t + num_frames + 1,
   fun c p => (seed : ℝ) + c + p + component_size + 2)

/-- A per-logging-interval timing record (`log.log_time` in the source). -/
structure TimingRecord where
  iteration : ℕ
  time_loss : ℝ
  time_getx : ℝ
  time_update : ℝ

/-- A per-iteration record (`log.log_iteration` in the source): iteration
index, average loss, and optionally the raw gradients and parameter
snapshots of the detailed (first-iteration) record. -/
structure IterationRecord where
  iteration : ℕ
  loss : ℝ
  details : Option (Tensor × Tensor × Tensor × Tensor × Tensor × Tensor)

/-- Modelled from the spec (§3, §6): the `Log` of `dnmfx/log.py`, absent from
the checked tree — two append-only record sequences. -/
structure Log where
  timing_logs : List TimingRecord
  iteration_logs : List IterationRecord

/-- Append a timing record. -/
def Log.log_time (log : Log) (iteration : ℕ) (tl tg tu : ℝ) : Log :=
  { log with timing_logs := log.timing_logs ++ [⟨iteration, tl, tg, tu⟩] }

/-- Append a lightweight iteration record (index and loss only). -/
def Log.log_iteration_light (log : Log) (iteration : ℕ) (loss : ℝ) : Log :=
  { log with iteration_logs := log.iteration_logs ++ [⟨iteration, loss, none⟩] }

/-- Append a detailed iteration record (gradients and parameter snapshots). -/
def Log.log_iteration_detail (log : Log) (iteration : ℕ) (loss : ℝ)
    (grads : Option (Tensor × Tensor × Tensor)) (logits : Tensor × Tensor × Tensor) :
    Log :=
  { log with iteration_logs := log.iteration_logs ++
      [⟨iteration, loss,
        grads.map (fun gr =>
          (gr.1, gr.2.1, gr.2.2, logits.1, logits.2.1, logits.2.2))⟩] }

/-- Modelled from the spec (§3): the optimization parameters of
`dnmfx/parameters.py`, absent from the checked tree. -/
structure Parameters where
  max_iteration : ℕ
  batch_size : ℕ
  step_size : ℝ
  min_loss : ℝ

/-- The mutable state threaded through the optimization loop: the three
logit tensors, the global random state, the ghost trace of sampled
(component index, frame indices) pairs, the log, the per-iteration loss
total (`total_loss_per_connected_component`), and the gradients left over
from the most recent group step (read by the detailed first-iteration
logging). -/
structure OptState where
  H : Tensor
  W : Tensor
  B : Tensor
  rng : RandomState
  trace : List (ℕ × List ℕ)
  log : Log
  total : ℝ
  lastGrads : Option (Tensor × Tensor × Tensor)

/-- The body of the per-group loop of `dnmf` up to line 120: sample one
component from the group, sample `batch_size` distinct frames, gather the
data, compute loss and gradient, accumulate the loss, apply the update. -/
def groupCore (sequence : ℕ → ℕ → ℝ) (num_frames : ℕ) (params : Parameters)
    (group : List ComponentDescription) (st : OptState) : OptState :=
  let s1 := randomSample group 1 st.rng
  let cd := s1.1.getD 0 default
  let s2 := randomSample (List.range num_frames) params.batch_size s1.2
  let frames := s2.1
  let x := get_x sequence frames cd.bounding_box
  let lg := l2_loss_grad st.H st.W st.B x cd frames
  let upd := update st.H st.W st.B lg.2.1 lg.2.2.1 lg.2.2.2 params.step_size
  { H := upd.1, W := upd.2.1, B := upd.2.2, rng := s2.2,
    trace := st.trace ++ [(cd.index, frames)],
    log := st.log, total := st.total + lg.1, lastGrads := some lg.2 }

/-- The component picked from a group by the group-loop body (line 89):
`random.sample(groups[i], 1)[0]` evaluated at the entry random state. -/
def sampledComponent (group : List ComponentDescription) (st : OptState) :
    ComponentDescription :=
  (randomSample group 1 st.rng).1.getD 0 default

/-- The frame batch picked by the group-loop body (lines 93–95):
`random.sample(range(num_frames), batch_size)` evaluated at the random state
left behind by the component draw. -/
def sampledFrames (num_frames batch_size : ℕ)
    (group : List ComponentDescription) (st : OptState) : List ℕ :=
  (randomSample (List.range num_frames) batch_size
    (randomSample group 1 st.rng).2).1

/-- The gradient triple computed by the group-loop body (lines 98–108): the
loss-and-gradient call on the data of the sampled component and frames. -/
def groupGrads (sequence : ℕ → ℕ → ℝ) (num_frames : ℕ) (params : Parameters)
    (group : List ComponentDescription) (st : OptState) :
    Tensor × Tensor × Tensor :=
  (l2_loss_grad st.H st.W st.B
    (get_x sequence (sampledFrames num_frames params.batch_size group st)
      (sampledComponent group st).bounding_box)
    (sampledComponent group st)
    (sampledFrames num_frames params.batch_size group st)).2

/-- The component-size uniformity check of `dnmf` (lines 62–69): fold over
the descriptions, recording the first size and asserting that every later
one equals it. -/
def sizeCheckAux : Option ℕ → List ComponentDescription →
    Except PyError (Option ℕ)
  | acc, [] => Except.ok acc
  | acc, d :: rest =>
    match acc with
    | some s =>
      if s = d.bounding_box.get_size then sizeCheckAux (some s) rest
      else Except.error PyError.assertionError
    | none => sizeCheckAux (some d.bounding_box.get_size) rest

/-- The component-size uniformity check, started with no recorded size. -/
def componentSizeCheck (descs : List ComponentDescription) :
    Except PyError (Option ℕ) :=
  sizeCheckAux none descs

/-- The common iteration loop of `dnmf` (lines 82, 149–151): run at most the
remaining-fuel number of iterations; an iteration either raises, or yields
the iteration's average loss, upon which the loop stops if that average is
strictly below `min_loss` and otherwise continues. -/
def runLoop (iter : ℕ → OptState → OptState × Except PyError ℝ)
    (min_loss : ℝ) : ℕ → ℕ → OptState → OptState × Except PyError Unit
  | 0, _, st => (st, Except.ok ())
  | fuel + 1, k, st =>
    match iter k st with
    | (st', Except.error e) => (st', Except.error e)
    | (st', Except.ok avg) =>
      if avg < min_loss then (st', Except.ok ())
      else runLoop iter min_loss fuel (k + 1) st'

/-- One iteration of the source exactly as written: the first group body runs
through the update (lines 84–120) and then executes line 121,
`update_end_time = timer()`, where `timer` is defined nowhere in the module,
raising `NameError('timer')`.  With no groups, control reaches the timing
log (lines 124–129), which reads the undefined `time_loss`; off the logging
cadence it reaches line 132, which reads the undefined
`total_loss_per_group`. -/
def iterSource (sequence : ℕ → ℕ → ℝ) (num_frames : ℕ) (params : Parameters)
    (groups : List (List ComponentDescription)) (log_every : ℕ)
    (k : ℕ) (st : OptState) : OptState × Except PyError ℝ :=
  let st0 := { st with total := 0 }
  match groups with
  | [] =>
    if k % log_every = 0 then
      (st0, Except.error (PyError.nameError "time_loss"))
    else
      (st0, Except.error (PyError.nameError "total_loss_per_group"))
  | g :: _ =>
    (groupCore sequence num_frames params g st0,
     Except.error (PyError.nameError "timer"))

/-- The observable outcome of a run: the returned value or the uncaught
exception, together with the ghost trace of sampled (component, frames)
pairs and the global random state left behind. -/
structure RunOutcome where
  result : Except PyError (Tensor × Tensor × Tensor × Log)
  trace : List (ℕ × List ℕ)
  rng : RandomState

/-- Shared tail of the three `dnmf` layers: size check, initialization, the
loop, and the sigmoid-transformed return (line 153). -/
def dnmfWith
    (iter : List (List ComponentDescription) → ℕ → OptState →
      OptState × Except PyError ℝ)
    (num_frames : ℕ)
    (component_descriptions : List ComponentDescription)
    (parameters : Parameters) (random_seed : ℕ) (g : RandomState) :
    RunOutcome :=
  let groups := get_groups component_descriptions
  match componentSizeCheck component_descriptions with
  | Except.error e => ⟨Except.error e, [], g⟩
  | Except.ok sz =>
    let ini := init_normal component_descriptions.length num_frames
      (sz.getD 0) random_seed
    let st0 : OptState :=
      ⟨ini.1, ini.2.1, ini.2.2, g, [], ⟨[], []⟩, 0, none⟩
    match runLoop (iter groups) parameters.min_loss
        parameters.max_iteration 0 st0 with
    | (st, Except.error e) => ⟨Except.error e, st.trace, st.rng⟩
    | (st, Except.ok _) =>
      ⟨Except.ok (fun c p => sigmoid (st.H c p),
                  fun c t => sigmoid (st.W c t),
                  fun c p => sigmoid (st.B c p), st.log),
       st.trace, st.rng⟩

/-- The faithful embedding of `dnmf` (`optimize.py`, lines 13–153): the
source exactly as written, including the reads of the undefined names
`timer`, `time_loss` and `total_loss_per_group`.  The sequence is a function
of frame index and flat pixel index; its frame count, read from
`sequence.shape[0]` in the source, is the explicit `num_frames`.
`log_gradients` is accepted but never reached: the loop raises before the
gradient-logging lines. -/
def dnmf (sequence : ℕ → ℕ → ℝ) (num_frames : ℕ)
    (component_descriptions : List ComponentDescription)
    (parameters : Parameters) (log_every : ℕ) (log_gradients : Bool)
    (random_seed : ℕ) (g : RandomState) : RunOutcome :=
  let _ := log_gradients
  dnmfWith
    (fun groups => iterSource sequence num_frames parameters groups log_every)
    num_frames component_descriptions parameters random_seed g

/-- One iteration with the timing repair the spec's design notes mandate
(§9): the timing accumulators are explicit state instead of the source's
undefined names (wall-clock durations are outside the model and recorded as
zero).  Everything else is as written in the source — in particular line 132
still reads the undefined `total_loss_per_group`, so every iteration raises
`NameError('total_loss_per_group')` after the per-group updates and the
timing log. -/
def iterTimerFixed (sequence : ℕ → ℕ → ℝ) (num_frames : ℕ)
    (params : Parameters) (groups : List (List ComponentDescription))
    (log_every : ℕ) (k : ℕ) (st : OptState) : OptState × Except PyError ℝ :=
  let st0 := { st with total := 0 }
  let st1 := groups.foldl
    (fun s gr => groupCore sequence num_frames params gr s) st0
  let st2 :=
    if k % log_every = 0 then { st1 with log := st1.log.log_time k 0 0 0 }
    else st1
  (st2, Except.error (PyError.nameError "total_loss_per_group"))

/-- Layer B: `dnmf` with the spec-mandated timing repair (§9) and nothing
else. -/
def dnmfTimerFixed (sequence : ℕ → ℕ → ℝ) (num_frames : ℕ)
    (component_descriptions : List ComponentDescription)
    (parameters : Parameters) (log_every : ℕ) (log_gradients : Bool)
    (random_seed : ℕ) (g : RandomState) : RunOutcome :=
  let _ := log_gradients
  dnmfWith
    (fun groups =>
      iterTimerFixed sequence num_frames parameters groups log_every)
    num_frames component_descriptions parameters random_seed g

/-- One iteration with both repairs the spec's design notes mandate (§9):
the timing accumulators are explicit state, and the average-loss line reads
the accumulated `total_loss_per_connected_component` where the source reads
the undefined `total_loss_per_group`.  The rest follows the source exactly:
the division by `num_groups` is unguarded (raising ZeroDivisionError when
there are no groups, before the logging lines), and the lightweight
iteration record of line 147 is logged with `i` — the stale group-loop
index, whose value after the loop is `num_groups - 1` — not with
`iteration`. -/
def iterRepaired (sequence : ℕ → ℕ → ℝ) (num_frames : ℕ)
    (params : Parameters) (groups : List (List ComponentDescription))
    (log_every : ℕ) (log_gradients : Bool) (k : ℕ) (st : OptState) :
    OptState × Except PyError ℝ :=
  let st0 := { st with total := 0 }
  let st1 := groups.foldl
    (fun s gr => groupCore sequence num_frames params gr s) st0
  let st2 :=
    if k % log_every = 0 then { st1 with log := st1.log.log_time k 0 0 0 }
    else st1
  if groups.length = 0 then (st2, Except.error PyError.zeroDivisionError)
  else
    let avg := st1.total / (groups.length : ℝ)
    let st3 :=
      if k = 0 ∧ log_gradients then
        { st2 with log :=
            (st2.log.log_iteration_detail k avg st2.lastGrads
              (st2.H, st2.W, st2.B)) }
      else if k % log_every = 0 then
        { st2 with log :=
            st2.log.log_iteration_light (groups.length - 1) avg }
      else st2
    (st3, Except.ok avg)

/-- Layer C: `dnmf` with both spec-mandated repairs (§9) applied, otherwise
faithful to the source. -/
def dnmfRepaired (sequence : ℕ → ℕ → ℝ) (num_frames : ℕ)
    (component_descriptions : List ComponentDescription)
    (parameters : Parameters) (log_every : ℕ) (log_gradients : Bool)
    (random_seed : ℕ) (g : RandomState) : RunOutcome :=
  dnmfWith
    (fun groups =>
      iterRepaired sequence num_frames parameters groups log_every
        log_gradients)
    num_frames component_descriptions parameters random_seed g

/-! ## Helper lemmas -/

/-- The denominator of the sigmoid never vanishes. -/
theorem one_add_exp_pos (z : ℝ) : 0 < 1 + Real.exp (-z) := by positivity

/-- Derivative of the logistic sigmoid: `s' = s·(1-s)`. -/
theorem hasDerivAt_sigmoid (z : ℝ) :
    HasDerivAt sigmoid (sigmoid z * (1 - sigmoid z)) z := by
  have hne : 1 + Real.exp (-z) ≠ 0 := ne_of_gt (one_add_exp_pos z)
  have h1 : HasDerivAt (fun t : ℝ => -t) (-1) z := (hasDerivAt_id z).neg
  have h2 : HasDerivAt (fun t : ℝ => Real.exp (-t)) (Real.exp (-z) * -1) z :=
    (Real.hasDerivAt_exp (-z)).comp z h1
  have h3 : HasDerivAt (fun t : ℝ => 1 + Real.exp (-t))
      (Real.exp (-z) * -1) z := h2.const_add 1
  have h4 := h3.inv hne
  have hfun : (fun t : ℝ => (1 + Real.exp (-t))⁻¹) = sigmoid := by
    funext t
    simp [sigmoid, one_div]
  rw [hfun] at h4
  convert h4 using 1
  unfold sigmoid
  field_simp
  ring

/-- Derivative of the scalar half-squared-error loss through the sigmoid
reparameterization. -/
theorem deriv_scalar_l2 (a c xv z : ℝ) :
    deriv (fun t => 2⁻¹ * (sigmoid t * a + c - xv) ^ 2) z
      = (sigmoid z * a + c - xv) * a * (sigmoid z * (1 - sigmoid z)) := by
  have hg : HasDerivAt (fun t => sigmoid t * a + c - xv)
      (sigmoid z * (1 - sigmoid z) * a) z :=
    (((hasDerivAt_sigmoid z).mul_const a).add_const c).sub_const xv
  have h := (hg.pow 2).const_mul (2⁻¹ : ℝ)
  rw [h.deriv]
  push_cast
  ring

/-- The gradient of the loss is zero outside the active component's slice. -/
theorem l2_loss_grad_inactive_zero (H W B : Tensor) (x : ℕ → ℕ → ℝ)
    (cd : ComponentDescription) (frames : List ℕ) (c : ℕ)
    (hc : c ≠ cd.index) (p : ℕ) :
    (l2_loss_grad H W B x cd frames).2.1 c p = 0 ∧
    (l2_loss_grad H W B x cd frames).2.2.1 c p = 0 ∧
    (l2_loss_grad H W B x cd frames).2.2.2 c p = 0 := by
  refine ⟨?_, ?_, ?_⟩ <;> simp [l2_loss_grad, hc]

/-! ## Claim theorems -/

/-- C10: `update` is a pure elementwise function — each entry of the
returned H (respectively W, B) is the corresponding input entry minus
`step_size` times the corresponding gradient entry, and every entry whose
gradient entry is zero is returned unchanged.  (The embedding is a pure
function; the source's `jnp` arrays are likewise never written in place —
`H - step_size * grad_H` allocates a fresh array.) -/
theorem c10_update_pointwise (H W B gH gW gB : Tensor) (step : ℝ)
    (c p : ℕ) :
    ((update H W B gH gW gB step).1 c p = H c p - step * gH c p ∧
     (update H W B gH gW gB step).2.1 c p = W c p - step * gW c p ∧
     (update H W B gH gW gB step).2.2 c p = B c p - step * gB c p) ∧
    (gH c p = 0 → (update H W B gH gW gB step).1 c p = H c p) ∧
    (gW c p = 0 → (update H W B gH gW gB step).2.1 c p = W c p) ∧
    (gB c p = 0 → (update H W B gH gW gB step).2.2 c p = B c p) := by
  refine ⟨⟨rfl, rfl, rfl⟩, ?_, ?_, ?_⟩ <;> intro h0 <;> simp [update, h0]

/-- Witness for C10 at a concrete input: a zero gradient entry leaves the
corresponding entry of H untouched. -/
theorem c10_update_pointwise_witness :
    ((fun _ _ => (0 : ℝ)) 0 0 = 0) ∧
    (update (fun _ _ => 1) (fun _ _ => 1) (fun _ _ => 1)
      (fun _ _ => 0) (fun _ _ => 0) (fun _ _ => 0) 2).1 0 0
        = (fun _ _ => (1 : ℝ)) 0 0 :=
  ⟨rfl, (c10_update_pointwise (fun _ _ => 1) (fun _ _ => 1) (fun _ _ => 1)
    (fun _ _ => 0) (fun _ _ => 0) (fun _ _ => 0) 2 0 0).2.1 rfl⟩

/-- C6: the group-loop body applies the update rule
`param ← param - step_size * grad` exactly once to each of the three logit
tensors, and only the sampled (active) component's slice changes — every
other component's H, W and B rows are returned unchanged; moreover, within
one iteration of the (repaired) loop the parameter tensors are exactly the
fold of one such group step per group — the logging branches never touch
them. -/
theorem c6_group_step_update_rule (sequence : ℕ → ℕ → ℝ) (num_frames : ℕ)
    (params : Parameters) (group : List ComponentDescription)
    (st : OptState) :
    ((groupCore sequence num_frames params group st).H
        = (update st.H st.W st.B
            (groupGrads sequence num_frames params group st).1
            (groupGrads sequence num_frames params group st).2.1
            (groupGrads sequence num_frames params group st).2.2
            params.step_size).1 ∧
     (groupCore sequence num_frames params group st).W
        = (update st.H st.W st.B
            (groupGrads sequence num_frames params group st).1
            (groupGrads sequence num_frames params group st).2.1
            (groupGrads sequence num_frames params group st).2.2
            params.step_size).2.1 ∧
     (groupCore sequence num_frames params group st).B
        = (update st.H st.W st.B
            (groupGrads sequence num_frames params group st).1
            (groupGrads sequence num_frames params group st).2.1
            (groupGrads sequence num_frames params group st).2.2
            params.step_size).2.2) ∧
    (∀ c, c ≠ (sampledComponent group st).index →
      (∀ p, (groupCore sequence num_frames params group st).H c p = st.H c p) ∧
      (∀ t, (groupCore sequence num_frames params group st).W c t = st.W c t) ∧
      (∀ p, (groupCore sequence num_frames params group st).B c p = st.B c p)) ∧
    (∀ (groups : List (List ComponentDescription)) (log_every : ℕ)
        (lg : Bool) (k : ℕ),
      (iterRepaired sequence num_frames params groups log_every lg
          k st).1.H
        = (groups.foldl (fun s gr => groupCore sequence num_frames params
            gr s) { st with total := 0 }).H ∧
      (iterRepaired sequence num_frames params groups log_every lg
          k st).1.W
        = (groups.foldl (fun s gr => groupCore sequence num_frames params
            gr s) { st with total := 0 }).W ∧
      (iterRepaired sequence num_frames params groups log_every lg
          k st).1.B
        = (groups.foldl (fun s gr => groupCore sequence num_frames params
            gr s) { st with total := 0 }).B) := by
  refine ⟨⟨rfl, rfl, rfl⟩, ?_, ?_⟩
  case refine_2 =>
    intro groups log_every lg k
    simp only [iterRepaired]
    split_ifs <;> exact ⟨rfl, rfl, rfl⟩
  intro c hc
  refine ⟨fun p => ?_, fun t => ?_, fun p => ?_⟩
  · show st.H c p - params.step_size *
      (groupGrads sequence num_frames params group st).1 c p = st.H c p
    rw [show (groupGrads sequence num_frames params group st).1 c p = 0 from
      (l2_loss_grad_inactive_zero st.H st.W st.B _ _ _ c hc p).1]
    ring
  · show st.W c t - params.step_size *
      (groupGrads sequence num_frames params group st).2.1 c t = st.W c t
    rw [show (groupGrads sequence num_frames params group st).2.1 c t = 0 from
      (l2_loss_grad_inactive_zero st.H st.W st.B _ _ _ c hc t).2.1]
    ring
  · show st.B c p - params.step_size *
      (groupGrads sequence num_frames params group st).2.2 c p = st.B c p
    rw [show (groupGrads sequence num_frames params group st).2.2 c p = 0 from
      (l2_loss_grad_inactive_zero st.H st.W st.B _ _ _ c hc p).2.2]
    ring

/-- Witness for C6 at a concrete input: with one sampled component of
index 0, the H row of the untouched component 1 is unchanged by the group
step. -/
theorem c6_group_step_update_rule_witness :
    ((1 : ℕ) ≠ (sampledComponent [⟨0, ⟨0, 1⟩⟩]
        ⟨fun _ _ => 0, fun _ _ => 0, fun _ _ => 0, ⟨fun _ => 0, 0⟩, [],
          ⟨[], []⟩, 0, none⟩).index) ∧
    (groupCore (fun _ _ => 0) 1 ⟨1, 1, 1, 0⟩ [⟨0, ⟨0, 1⟩⟩]
        ⟨fun _ _ => 0, fun _ _ => 0, fun _ _ => 0, ⟨fun _ => 0, 0⟩, [],
          ⟨[], []⟩, 0, none⟩).H 1 0 = 0 :=
  ⟨by decide,
   ((c6_group_step_update_rule (fun _ _ => 0) 1 ⟨1, 1, 1, 0⟩ [⟨0, ⟨0, 1⟩⟩]
      ⟨fun _ _ => 0, fun _ _ => 0, fun _ _ => 0, ⟨fun _ => 0, 0⟩, [],
        ⟨[], []⟩, 0, none⟩).2.1 1 (by decide)).1 0⟩

/-- C1: in the concrete 1×1-image, 1-frame, batch-size-1 scenario (one
component of unit size, the full frame batch `[0]`), the gradients returned
by the loss-and-gradient computation equal the closed-form expressions
`e·s(W)·s(H)(1-s(H))`, `e·s(H)·s(W)(1-s(W))` and `e·s(B)(1-s(B))` (with
`e = x_hat - x` and the one-frame means collapsing) to within `1e-3` at the
given logits — and, moreover, each returned gradient is exactly the true
derivative of the returned loss with respect to the corresponding logit. -/
theorem c1_gradients_match_closed_form_and_derivative (h w b xv : ℝ) :
    (|(l2_loss_grad (fun _ _ => h) (fun _ _ => w) (fun _ _ => b)
          (fun _ _ => xv) ⟨0, ⟨0, 1⟩⟩ [0]).2.1 0 0
        - (sigmoid h * sigmoid w + sigmoid b - xv) * sigmoid w *
            (sigmoid h * (1 - sigmoid h))| < 1 / 1000 ∧
     |(l2_loss_grad (fun _ _ => h) (fun _ _ => w) (fun _ _ => b)
          (fun _ _ => xv) ⟨0, ⟨0, 1⟩⟩ [0]).2.2.1 0 0
        - (sigmoid h * sigmoid w + sigmoid b - xv) * sigmoid h *
            (sigmoid w * (1 - sigmoid w))| < 1 / 1000 ∧
     |(l2_loss_grad (fun _ _ => h) (fun _ _ => w) (fun _ _ => b)
          (fun _ _ => xv) ⟨0, ⟨0, 1⟩⟩ [0]).2.2.2 0 0
        - (sigmoid h * sigmoid w + sigmoid b - xv) *
            (sigmoid b * (1 - sigmoid b))| < 1 / 1000) ∧
    ((l2_loss_grad (fun _ _ => h) (fun _ _ => w) (fun _ _ => b)
          (fun _ _ => xv) ⟨0, ⟨0, 1⟩⟩ [0]).2.1 0 0
        = deriv (fun z => (l2_loss_grad (fun _ _ => z) (fun _ _ => w)
            (fun _ _ => b) (fun _ _ => xv) ⟨0, ⟨0, 1⟩⟩ [0]).1) h ∧
     (l2_loss_grad (fun _ _ => h) (fun _ _ => w) (fun _ _ => b)
          (fun _ _ => xv) ⟨0, ⟨0, 1⟩⟩ [0]).2.2.1 0 0
        = deriv (fun z => (l2_loss_grad (fun _ _ => h) (fun _ _ => z)
            (fun _ _ => b) (fun _ _ => xv) ⟨0, ⟨0, 1⟩⟩ [0]).1) w ∧
     (l2_loss_grad (fun _ _ => h) (fun _ _ => w) (fun _ _ => b)
          (fun _ _ => xv) ⟨0, ⟨0, 1⟩⟩ [0]).2.2.2 0 0
        = deriv (fun z => (l2_loss_grad (fun _ _ => h) (fun _ _ => w)
            (fun _ _ => z) (fun _ _ => xv) ⟨0, ⟨0, 1⟩⟩ [0]).1) b) := by
  have eH : (l2_loss_grad (fun _ _ => h) (fun _ _ => w) (fun _ _ => b)
      (fun _ _ => xv) ⟨0, ⟨0, 1⟩⟩ [0]).2.1 0 0
      = (sigmoid h * sigmoid w + sigmoid b - xv) * sigmoid w *
          (sigmoid h * (1 - sigmoid h)) := by
    simp [l2_loss_grad, BoundingBox.get_size]
  have eW : (l2_loss_grad (fun _ _ => h) (fun _ _ => w) (fun _ _ => b)
      (fun _ _ => xv) ⟨0, ⟨0, 1⟩⟩ [0]).2.2.1 0 0
      = (sigmoid h * sigmoid w + sigmoid b - xv) * sigmoid h *
          (sigmoid w * (1 - sigmoid w)) := by
    simp [l2_loss_grad, BoundingBox.get_size, List.indexOf_cons_self]
  have eB : (l2_loss_grad (fun _ _ => h) (fun _ _ => w) (fun _ _ => b)
      (fun _ _ => xv) ⟨0, ⟨0, 1⟩⟩ [0]).2.2.2 0 0
      = (sigmoid h * sigmoid w + sigmoid b - xv) *
          (sigmoid b * (1 - sigmoid b)) := by
    simp [l2_loss_grad, BoundingBox.get_size]
  refine ⟨⟨?_, ?_, ?_⟩, ?_, ?_, ?_⟩
  · rw [eH, sub_self, abs_zero]
    norm_num
  · rw [eW, sub_self, abs_zero]
    norm_num
  · rw [eB, sub_self, abs_zero]
    norm_num
  · have fH : (fun z => (l2_loss_grad (fun _ _ => z) (fun _ _ => w)
        (fun _ _ => b) (fun _ _ => xv) ⟨0, ⟨0, 1⟩⟩ [0]).1)
        = fun z => 2⁻¹ * (sigmoid z * sigmoid w + sigmoid b - xv) ^ 2 := by
      funext z
      simp [l2_loss_grad, BoundingBox.get_size]
    rw [fH, deriv_scalar_l2, eH]
  · have fW : (fun z => (l2_loss_grad (fun _ _ => h) (fun _ _ => z)
        (fun _ _ => b) (fun _ _ => xv) ⟨0, ⟨0, 1⟩⟩ [0]).1)
        = fun z => 2⁻¹ * (sigmoid z * sigmoid h + sigmoid b - xv) ^ 2 := by
      funext z
      simp [l2_loss_grad, BoundingBox.get_size]
      ring
    rw [fW, deriv_scalar_l2, eW]
    ring
  · have fB : (fun z => (l2_loss_grad (fun _ _ => h) (fun _ _ => w)
        (fun _ _ => z) (fun _ _ => xv) ⟨0, ⟨0, 1⟩⟩ [0]).1)
        = fun z => 2⁻¹ * (sigmoid z * 1 + sigmoid h * sigmoid w - xv) ^ 2 := by
      funext z
      simp [l2_loss_grad, BoundingBox.get_size]
      ring
    rw [fB, deriv_scalar_l2, eB]
    ring

/-- C4: the loop in the source never reaches a normal terminal state — on a
run with one component and `max_iteration = 1`, the first group body raises
`NameError('timer')` at line 121 (`timer` is defined nowhere in the module),
so neither the convergence break nor exhaustion is ever reached. -/
theorem c4_first_group_body_raises_name_error :
    (dnmf (fun _ _ => 0) 1 [⟨0, ⟨0, 1⟩⟩] ⟨1, 1, 1, 0⟩ 10 false 0
        ⟨fun _ => 0, 0⟩).result
      = Except.error (PyError.nameError "timer") := rfl

/-- C7: no timing record is ever appended — on iteration 0 (always on the
logging cadence, `0 % log_every = 0`) the timing-log call of lines 124–129
reads the undefined accumulator `time_loss` and raises NameError (shown here
on a run with no groups; with groups present, the undefined `timer` of
line 121 raises even earlier). -/
theorem c7_timing_log_reads_undefined_accumulator :
    (dnmf (fun _ _ => 0) 1 [] ⟨1, 1, 1, 0⟩ 10 false 0
        ⟨fun _ => 0, 0⟩).result
      = Except.error (PyError.nameError "time_loss") := rfl

/-- C2: the average-loss line never computes the accumulated total divided
by the number of groups — even with the undefined timing accumulators
repaired as the spec's design notes direct, line 132 reads
`total_loss_per_group`, a name assigned nowhere in the function (the loop
accumulates into `total_loss_per_connected_component`), and raises
NameError on iteration 0 of a one-component run. -/
theorem c2_average_loss_reads_undefined_name :
    (dnmfTimerFixed (fun _ _ => 0) 1 [⟨0, ⟨0, 1⟩⟩] ⟨1, 1, 1, 0⟩ 10 false 0
        ⟨fun _ => 0, 0⟩).result
      = Except.error (PyError.nameError "total_loss_per_group") := rfl

/-- C9: the lightweight iteration record does not carry the current
iteration's index — at iteration 1 of a one-group run with `log_every = 1`
(and both spec-directed name repairs applied so that control reaches the
logging line at all), the record appended by line 147 carries `i`, the stale
group-loop index `num_groups - 1 = 0`, not the iteration index 1. -/
theorem c9_lightweight_record_logs_stale_group_index :
    ((iterRepaired (fun _ _ => 0) 1 ⟨2, 1, 1, -1⟩ [[⟨0, ⟨0, 1⟩⟩]] 1 false 1
        ⟨fun _ _ => 0, fun _ _ => 0, fun _ _ => 0, ⟨fun _ => 0, 0⟩, [],
          ⟨[], []⟩, 0, none⟩).1.log.iteration_logs.map
      (fun r => r.iteration)) = [0] := rfl

/-- C5: a call with an empty component-description list does not return
immediately as converged — with both spec-directed name repairs applied (the
unrepaired source raises NameError even earlier), the first iteration's
average-loss line divides the loss total by `num_groups = 0` and raises
ZeroDivisionError whenever at least one iteration runs. -/
theorem c5_empty_components_divide_by_zero (sequence : ℕ → ℕ → ℝ)
    (num_frames : ℕ) (params : Parameters) (log_every : ℕ)
    (log_gradients : Bool) (seed : ℕ) (g : RandomState)
    (hmax : 1 ≤ params.max_iteration) :
    (dnmfRepaired sequence num_frames [] params log_every log_gradients
        seed g).result
      = Except.error PyError.zeroDivisionError := by
  obtain ⟨n, hn⟩ : ∃ n, params.max_iteration = n + 1 :=
    ⟨params.max_iteration - 1, by omega⟩
  simp [dnmfRepaired, dnmfWith, componentSizeCheck, sizeCheckAux,
    get_groups, hn, runLoop, iterRepaired, Nat.zero_mod]

/-- Witness for C5 at a concrete input. -/
theorem c5_empty_components_divide_by_zero_witness :
    1 ≤ (⟨1, 1, 1, 0⟩ : Parameters).max_iteration ∧
    (dnmfRepaired (fun _ _ => 0) 1 [] ⟨1, 1, 1, 0⟩ 10 false 0
        ⟨fun _ => 0, 0⟩).result
      = Except.error PyError.zeroDivisionError :=
  ⟨le_refl 1,
   c5_empty_components_divide_by_zero (fun _ _ => 0) 1 ⟨1, 1, 1, 0⟩ 10 false
     0 ⟨fun _ => 0, 0⟩ (le_refl 1)⟩

/-- The size-check fold started from a recorded size succeeds iff every
remaining description has exactly that size, and then returns it. -/
theorem sizeCheckAux_ok_iff (s : ℕ) (l : List ComponentDescription)
    (v : Option ℕ) :
    sizeCheckAux (some s) l = Except.ok v
      ↔ (v = some s ∧ ∀ d ∈ l, d.bounding_box.get_size = s) := by
  induction l with
  | nil =>
    simp [sizeCheckAux, eq_comm]
  | cons d rest ih =>
    by_cases hd : s = d.bounding_box.get_size
    · subst hd
      simp [sizeCheckAux, ih]
    · simp [sizeCheckAux, hd, Ne.symm hd]

/-- The size check either raises the assertion or succeeds. -/
theorem sizeCheckAux_error_or_ok (l : List ComponentDescription)
    (acc : Option ℕ) :
    sizeCheckAux acc l = Except.error PyError.assertionError ∨
    ∃ v, sizeCheckAux acc l = Except.ok v := by
  induction l generalizing acc with
  | nil => exact Or.inr ⟨acc, rfl⟩
  | cons d rest ih =>
    cases acc with
    | none =>
      simpa [sizeCheckAux] using ih (some d.bounding_box.get_size)
    | some s =>
      by_cases hd : s = d.bounding_box.get_size
      · simpa [sizeCheckAux, hd] using ih (some s)
      · simp [sizeCheckAux, hd]

/-- If the size check succeeds, all component sizes are pairwise equal. -/
theorem componentSizeCheck_ok_uniform (descs : List ComponentDescription)
    (v : Option ℕ) (hok : componentSizeCheck descs = Except.ok v) :
    ∀ d1 ∈ descs, ∀ d2 ∈ descs,
      d1.bounding_box.get_size = d2.bounding_box.get_size := by
  cases descs with
  | nil =>
    intro d1 h1
    simp at h1
  | cons d rest =>
    have hrest : sizeCheckAux (some d.bounding_box.get_size) rest
        = Except.ok v := by
      simpa [componentSizeCheck, sizeCheckAux] using hok
    rw [sizeCheckAux_ok_iff] at hrest
    intro d1 h1 d2 h2
    have e1 : d1.bounding_box.get_size = d.bounding_box.get_size := by
      rcases List.mem_cons.mp h1 with h | h
      · rw [h]
      · exact hrest.2 d1 h
    have e2 : d2.bounding_box.get_size = d.bounding_box.get_size := by
      rcases List.mem_cons.mp h2 with h | h
      · rw [h]
      · exact hrest.2 d2 h
    rw [e1, e2]

/-- C8: if any two supplied component descriptions have bounding boxes of
different sizes, `dnmf` fails at setup with the assertion of lines 62–69 —
before any optimization work (the run's sample trace is empty, so no
parameter was ever touched); if all sizes are equal, the check passes. -/
theorem c8_inconsistent_sizes_fail_at_setup (sequence : ℕ → ℕ → ℝ)
    (num_frames : ℕ) (descs : List ComponentDescription)
    (params : Parameters) (log_every : ℕ) (log_gradients : Bool)
    (seed : ℕ) (g : RandomState) :
    ((∃ d1 ∈ descs, ∃ d2 ∈ descs,
        d1.bounding_box.get_size ≠ d2.bounding_box.get_size) →
      (dnmf sequence num_frames descs params log_every log_gradients
          seed g).result = Except.error PyError.assertionError ∧
      (dnmf sequence num_frames descs params log_every log_gradients
          seed g).trace = []) ∧
    ((∀ d1 ∈ descs, ∀ d2 ∈ descs,
        d1.bounding_box.get_size = d2.bounding_box.get_size) →
      ∃ v, componentSizeCheck descs = Except.ok v) := by
  constructor
  · rintro ⟨d1, h1, d2, h2, hne⟩
    have herr : componentSizeCheck descs
        = Except.error PyError.assertionError := by
      rcases sizeCheckAux_error_or_ok descs none with h | ⟨v, hv⟩
      · exact h
      · exact absurd (componentSizeCheck_ok_uniform descs v hv d1 h1 d2 h2)
          hne
    constructor <;> simp [dnmf, dnmfWith, herr]
  · intro hall
    cases descs with
    | nil => exact ⟨none, rfl⟩
    | cons d rest =>
      refine ⟨some d.bounding_box.get_size, ?_⟩
      show sizeCheckAux none (d :: rest) = _
      rw [sizeCheckAux, sizeCheckAux_ok_iff]
      exact ⟨rfl, fun e he =>
        hall e (List.mem_cons_of_mem d he) d (List.mem_cons_self d rest)⟩

/-- Witness for C8 at a concrete input: two components of sizes 1 and 2
make `dnmf` fail with the setup assertion before any sampling. -/
theorem c8_inconsistent_sizes_fail_at_setup_witness :
    (∃ d1 ∈ ([⟨0, ⟨0, 1⟩⟩, ⟨1, ⟨0, 2⟩⟩] : List ComponentDescription),
      ∃ d2 ∈ ([⟨0, ⟨0, 1⟩⟩, ⟨1, ⟨0, 2⟩⟩] : List ComponentDescription),
        d1.bounding_box.get_size ≠ d2.bounding_box.get_size) ∧
    (dnmf (fun _ _ => 0) 1 [⟨0, ⟨0, 1⟩⟩, ⟨1, ⟨0, 2⟩⟩] ⟨1, 1, 1, 0⟩ 10 false 0
        ⟨fun _ => 0, 0⟩).result = Except.error PyError.assertionError :=
  ⟨by decide,
   ((c8_inconsistent_sizes_fail_at_setup (fun _ _ => 0) 1
      [⟨0, ⟨0, 1⟩⟩, ⟨1, ⟨0, 2⟩⟩] ⟨1, 1, 1, 0⟩ 10 false 0
      ⟨fun _ => 0, 0⟩).1 (by decide)).1⟩

/-- C3 counterexample: with the seed fixed (7) and identical inputs, two
consecutive calls of `dnmf` sample different frame batches — the source
passes the seed only to the initialization and never seeds the `random`
module, so the second call starts from the global random state the first
left behind and draws `[1]` where the first drew `[0]`. -/
theorem c3_two_consecutive_runs_sample_differently :
    (dnmf (fun _ _ => 0) 2 [⟨0, ⟨0, 1⟩⟩] ⟨1, 1, 1, 0⟩ 10 false 7
        ⟨fun n => if n ≤ 1 then 0 else 1, 0⟩).trace = [(0, [0])] ∧
    (dnmf (fun _ _ => 0) 2 [⟨0, ⟨0, 1⟩⟩] ⟨1, 1, 1, 0⟩ 10 false 7
        (dnmf (fun _ _ => 0) 2 [⟨0, ⟨0, 1⟩⟩] ⟨1, 1, 1, 0⟩ 10 false 7
          ⟨fun n => if n ≤ 1 then 0 else 1, 0⟩).rng).trace = [(0, [1])] ∧
    ([(0, [0])] : List (ℕ × List ℕ)) ≠ [(0, [1])] :=
  ⟨rfl, rfl, by decide⟩

/-- C3 amended: two runs with identical seed, inputs and parameters are
identical whenever they also start from the same global random-module
state; and the seed influences only the initialization — the sequences of
sampled components/frames and the random state left behind are the same for
any two seeds. -/
theorem c3_amended_determinism_given_rng_state (sequence : ℕ → ℕ → ℝ)
    (num_frames : ℕ) (descs : List ComponentDescription)
    (params : Parameters) (log_every : ℕ) (log_gradients : Bool)
    (seed1 seed2 : ℕ) (g1 g2 : RandomState) (hg : g1 = g2) :
    dnmf sequence num_frames descs params log_every log_gradients seed1 g1
      = dnmf sequence num_frames descs params log_every log_gradients
          seed1 g2
    ∧ (dnmf sequence num_frames descs params log_every log_gradients
        seed1 g1).trace
      = (dnmf sequence num_frames descs params log_every log_gradients
          seed2 g1).trace
    ∧ (dnmf sequence num_frames descs params log_every log_gradients
        seed1 g1).rng
      = (dnmf sequence num_frames descs params log_every log_gradients
          seed2 g1).rng := by
  refine ⟨by rw [hg], ?_, ?_⟩ <;>
  · cases hc : componentSizeCheck descs with
    | error e => simp [dnmf, dnmfWith, hc]
    | ok sz =>
      cases hmi : params.max_iteration with
      | zero => simp [dnmf, dnmfWith, hc, hmi, runLoop]
      | succ n =>
        cases hgr : get_groups descs with
        | nil =>
          by_cases hle : 0 % log_every = 0
          · simp [dnmf, dnmfWith, hc, hmi, hgr, hle, runLoop, iterSource]
          · simp [dnmf, dnmfWith, hc, hmi, hgr, hle, runLoop, iterSource]
        | cons gr grs =>
          simp [dnmf, dnmfWith, hc, hmi, hgr, runLoop, iterSource, groupCore]

/-- Witness for the amended C3 at a concrete input. -/
theorem c3_amended_determinism_given_rng_state_witness :
    (⟨fun _ => 0, 0⟩ : RandomState) = ⟨fun _ => 0, 0⟩ ∧
    dnmf (fun _ _ => 0) 2 [⟨0, ⟨0, 1⟩⟩] ⟨1, 1, 1, 0⟩ 10 false 7
        ⟨fun _ => 0, 0⟩
      = dnmf (fun _ _ => 0) 2 [⟨0, ⟨0, 1⟩⟩] ⟨1, 1, 1, 0⟩ 10 false 7
          ⟨fun _ => 0, 0⟩ :=
  ⟨rfl,
   (c3_amended_determinism_given_rng_state (fun _ _ => 0) 2 [⟨0, ⟨0, 1⟩⟩]
     ⟨1, 1, 1, 0⟩ 10 false 7 7 ⟨fun _ => 0, 0⟩ ⟨fun _ => 0, 0⟩ rfl).1⟩

end

end DNMFX
